import Mathlib

/-!
Verification of the OpenFActScore scoring pipeline (`factscore/factscorer.py`).

Strings are modelled as `List Char` so that substring search, first-occurrence
index, lower-casing, punctuation stripping and whitespace splitting are
executable and provable.  Floating-point numbers from the Python code are
modelled as `ℚ` where the code only compares or averages them, and as `ℝ`
where the code applies `np.exp` (the length penalty).  `np.mean` of an empty
list yields NaN in the code; that terminal non-number is modelled as `none`
of an `Option`-valued mean.  The external collaborators (retrieval, the
verification language model, the NPM cross-checker) enter `_get_score` only
through the text/score-vector output of one model call per atomic fact and
through one support probability per atomic fact, so they are modelled as
functions from the atomic fact to those values.
-/

namespace OpenFActScore

/-- Python strings, as explicit character lists. -/
abbrev Str := List Char

/-- `str.lower()` (ASCII case folding, which is what the verification answers use). -/
def lowerStr (s : Str) : Str := s.map Char.toLower

/-- Whitespace recognized by `str.split()` / `str.strip()` (ASCII white space). -/
def isSpaceChar (c : Char) : Bool :=
  c = ' ' || c = '\t' || c = '\n' || c = '\r' || c.toNat = 11 || c.toNat = 12

/-- `str.strip()`: remove leading and trailing whitespace. -/
def stripStr (s : Str) : Str :=
  ((s.dropWhile isSpaceChar).reverse.dropWhile isSpaceChar).reverse

/-- Membership in Python's `string.punctuation`, i.e. the ASCII ranges
33–47, 58–64, 91–96 and 123–126. -/
def isPunctChar (c : Char) : Bool :=
  (33 ≤ c.toNat && c.toNat ≤ 47) || (58 ≤ c.toNat && c.toNat ≤ 64) ||
  (91 ≤ c.toNat && c.toNat ≤ 96) || (123 ≤ c.toNat && c.toNat ≤ 126)

/-- `str.translate(str.maketrans("", "", string.punctuation))`: delete punctuation. -/
def stripPunct (s : Str) : Str := s.filter (fun c => !isPunctChar c)

/-- Helper of `splitWords`: accumulates the current word (reversed). -/
def splitWordsAux : Str → Str → List Str
  | [], acc => if acc.isEmpty then [] else [acc.reverse]
  | c :: t, acc =>
    if isSpaceChar c then
      if acc.isEmpty then splitWordsAux t [] else acc.reverse :: splitWordsAux t []
    else splitWordsAux t (c :: acc)

/-- `str.split()`: split on runs of whitespace, discarding empty pieces. -/
def splitWords (s : Str) : List Str := splitWordsAux s []

/-- Python's `pat in s` substring test. -/
def containsSub (s pat : Str) : Bool :=
  match s with
  | [] => pat.isEmpty
  | _ :: t => pat.isPrefixOf s || containsSub t pat

/-- Python's `s.index(pat)`: index of the first occurrence of `pat` in `s`
(meaningful when `containsSub s pat = true`). -/
def indexOfSub (s pat : Str) : Nat :=
  match s with
  | [] => 0
  | _ :: t => if pat.isPrefixOf s then 0 else indexOfSub t pat + 1

/-- The keyword "true" searched in generated answers. -/
def tru : Str := "true".data

/-- The keyword "false" searched in generated answers. -/
def fls : Str := "false".data

/-- The model-name fragment `"Llama-3.1-8B-Instruct"` tested by `_get_score`
to suppress score-vector resolution. -/
def llamaTag : Str := "Llama-3.1-8B-Instruct".data

/-- The model-name fragment `"npm"` whose presence enables the cross-checker. -/
def npmTag : Str := "npm".data

/-- Refusal keywords of the text-mode default branch. -/
def refusalKeywords : List Str :=
  ["not".data, "cannot".data, "unknown".data, "information".data]

/-- Vocabulary index of the True token (`true_ix = 5852`). -/
def true_ix : Nat := 5852

/-- Vocabulary index of the False token (`false_ix = 7700`). -/
def false_ix : Nat := 7700

/-- Message of the fatal `assert logits.shape[0] in [32000, 32001]`. -/
def vocabErr : String := "unexpected logits dimensionality"

/-- Output of one `self.lm.generate(prompt)` call: the generated text
`output[0]` and the optional first-token score vector `output[1]`
(`None` when the backend exposes no scores). -/
structure LMOutput where
  text : Str
  aux : Option (List ℚ)

/-- One entry of the decision list: `{"atom": atom, "is_supported": is_supported}`. -/
structure Decision where
  atom : Str
  is_supported : Bool
deriving DecidableEq

/-- Text-mode answer resolution, `factscorer.py` lines 283–292: lower-case the
generated text; "true" XOR "false" decides; both present compares the first
occurrence indices with `>`; neither present defaults to the refusal-keyword
test on the punctuation-stripped, whitespace-split text. -/
def resolveTextAnswer (output0 : Str) : Bool :=
  let ga := lowerStr output0
  if containsSub ga tru || containsSub ga fls then
    if containsSub ga tru && !containsSub ga fls then true
    else if containsSub ga fls && !containsSub ga tru then false
    else decide (indexOfSub ga tru > indexOfSub ga fls)
  else
    refusalKeywords.all fun kw =>
      !((splitWords (stripPunct (lowerStr ga))).contains kw)

/-- Score-vector answer resolution, `factscorer.py` lines 268–275: assert the
vocabulary size, then compare the weights of the True and False tokens. -/
def resolveLogitsAnswer (logits : List ℚ) : Except String Bool :=
  if logits.length = 32000 ∨ logits.length = 32001 then
    .ok (decide (logits.getD true_ix 0 > logits.getD false_ix 0))
  else .error vocabErr

/-- Answer-resolution dispatch, `factscorer.py` line 267: score-vector mode is
taken when `output[1]` is an ndarray AND the model name does not contain
`"Llama-3.1-8B-Instruct"`; otherwise text mode. -/
def resolveAnswer (modelName : Str) (out : LMOutput) : Except String Bool :=
  match out.aux with
  | some logits =>
    if containsSub modelName llamaTag then .ok (resolveTextAnswer out.text)
    else resolveLogitsAnswer logits
  | none => .ok (resolveTextAnswer out.text)

/-- `"npm" in self.model_name`: whether the NPM cross-checker runs. -/
def npmEnabled (modelName : Str) : Bool := containsSub modelName npmTag

/-- Support verdict of the verification model for one (stripped) atomic fact:
the resolved answer when a model is configured (`self.lm` truthy), and
`True` in no-verification mode (`self.lm` falsy, line 295).  The model call
— retrieval, prompt construction and generation — is abstracted as a
function from the atom to the model output, since the claims under proof
depend only on that output. -/
def baseSupport (lm : Option (Str → LMOutput)) (modelName : Str) (atom : Str) :
    Except String Bool :=
  match lm with
  | some gen => resolveAnswer modelName (gen atom)
  | none => .ok true

/-- The cross-checker veto threshold 0.3, written `mkRat 3 10` so that it
evaluates inside the kernel; `npmThreshold_eq` identifies it with `3/10`. -/
def npmThreshold : ℚ := mkRat 3 10

/-- NPM cross-check, `factscorer.py` lines 297–299: only a supported decision
is re-examined, and it survives iff the support probability exceeds 0.3. -/
def npmAdjust (modelName : Str) (npmProb : Str → ℚ) (atom : Str) (s : Bool) : Bool :=
  if s && npmEnabled modelName then decide (npmProb atom > npmThreshold) else s

/-- The decision produced for one atomic fact by the body of the
`for atom in atomic_facts` loop of `_get_score`. -/
def verifyAtom (lm : Option (Str → LMOutput)) (modelName : Str)
    (npmProb : Str → ℚ) (atom : Str) : Except String Decision :=
  match baseSupport lm modelName (stripStr atom) with
  | .error e => .error e
  | .ok s => .ok ⟨stripStr atom, npmAdjust modelName npmProb (stripStr atom) s⟩

instance {ε α : Type} [DecidableEq ε] [DecidableEq α] : DecidableEq (Except ε α) := fun x y =>
  match x, y with
  | .error e, .error e' =>
    if h : e = e' then .isTrue (by rw [h])
    else .isFalse (by intro hc; cases hc; exact h rfl)
  | .ok a, .ok a' =>
    if h : a = a' then .isTrue (by rw [h])
    else .isFalse (by intro hc; cases hc; exact h rfl)
  | .error _, .ok _ => .isFalse (by intro hc; cases hc)
  | .ok _, .error _ => .isFalse (by intro hc; cases hc)

/-- Sequential effectful map: the first failing element aborts the run,
exactly like an uncaught exception inside the Python loops. -/
def mapE (f : α → Except String β) : List α → Except String (List β)
  | [] => .ok []
  | a :: t =>
    match f a with
    | .error e => .error e
    | .ok b =>
      match mapE f t with
      | .error e => .error e
      | .ok bs => .ok (b :: bs)

/-- `_get_score(topic, generation, atomic_facts, ...)` without cost estimation:
the decision list for one response. -/
def decisionsOf (lm : Option (Str → LMOutput)) (modelName : Str)
    (npmProb : Str → ℚ) (atoms : List Str) : Except String (List Decision) :=
  mapE (verifyAtom lm modelName npmProb) atoms

/-- One entry of the scoring loop of `get_score`: an abstained response
(`facts is None`) contributes `None` to `decisions`; otherwise `_get_score`
runs. -/
def decideEntry (lm : Option (Str → LMOutput)) (modelName : Str)
    (npmProb : Str → ℚ) : Option (List Str) → Except String (Option (List Decision))
  | none => .ok none
  | some atoms =>
    match decisionsOf lm modelName npmProb atoms with
    | .error e => .error e
    | .ok ds => .ok (some ds)

/-- The `decisions` list accumulated by the scoring loop of `get_score`. -/
def batchDecisions (lm : Option (Str → LMOutput)) (modelName : Str)
    (npmProb : Str → ℚ) (facts : List (Option (List Str))) :
    Except String (List (Option (List Decision))) :=
  mapE (decideEntry lm modelName npmProb) facts

/-- `np.mean` of a rational list; `none` models the NaN produced on `[]`. -/
def meanQ (xs : List ℚ) : Option ℚ :=
  if xs.isEmpty then none else some (xs.sum / (xs.length : ℚ))

/-- `np.mean` of a real list; `none` models the NaN produced on `[]`. -/
noncomputable def meanR (xs : List ℝ) : Option ℝ :=
  if xs.isEmpty then none else some (xs.sum / (xs.length : ℝ))

/-- `np.mean([d["is_supported"] for d in decision])` (line 216): the
pre-penalty per-response score. -/
def initScore (ds : List Decision) : ℚ :=
  ((ds.map fun d => if d.is_supported then (1 : ℚ) else 0).sum) / (ds.length : ℚ)

/-- The length penalty of line 220:
`1.0 if len(facts) > gamma else np.exp(1 - gamma / len(facts))`. -/
noncomputable def penalty (gamma : ℚ) (c : ℕ) : ℝ :=
  if gamma < (c : ℚ) then 1 else Real.exp (1 - (gamma : ℝ) / (c : ℝ))

/-- The score appended to `scores` for one non-abstained response
(lines 216–221): penalized when `gamma` is truthy, raw otherwise. -/
noncomputable def loopScore (gamma : ℚ) (atoms : List Str) (ds : List Decision) : ℝ :=
  if gamma ≠ 0 then penalty gamma atoms.length * (initScore ds : ℝ)
  else (initScore ds : ℝ)

/-- The per-response `scores` list of `get_score`: abstained responses
contribute nothing. -/
noncomputable def batchScores (gamma : ℚ)
    (fds : List (Option (List Str) × Option (List Decision))) : List ℝ :=
  fds.filterMap fun fd =>
    match fd with
    | (some atoms, some ds) => some (loopScore gamma atoms ds)
    | _ => none

/-- The `init_scores` list of `get_score` (line 219), collected when `gamma`
is truthy. -/
def batchInits (fds : List (Option (List Str) × Option (List Decision))) : List ℚ :=
  fds.filterMap fun fd =>
    match fd with
    | (some _, some ds) => some (initScore ds)
    | _ => none

/-- `np.mean([facts is not None for facts in atomic_facts])` (line 192). -/
def respondRatioOf (facts : List (Option (List Str))) : Option ℚ :=
  meanQ (facts.map fun f => if f.isSome then (1 : ℚ) else 0)

/-- `np.mean([len(d) for d in decisions if d is not None])` (line 233). -/
def numFactsOf (decs : List (Option (List Decision))) : Option ℚ :=
  meanQ ((decs.filterMap id).map fun ds => (ds.length : ℚ))

/-- The output dictionary of `get_score` (lines 230–236).  `init_score`
carries an outer `Option` because the key is present only for truthy
`gamma`, and an inner `Option` because its `np.mean` may be NaN. -/
structure ScoreReport where
  score : Option ℝ
  respond_ratio : Option ℚ
  decisions : List (Option (List Decision))
  num_facts_per_response : Option ℚ
  init_score : Option (Option ℚ)

/-- Assembly of the output dictionary from the batch inputs and the
accumulated decision lists. -/
noncomputable def buildReport (gamma : ℚ) (facts : List (Option (List Str)))
    (decs : List (Option (List Decision))) : ScoreReport :=
  ⟨ meanR (batchScores gamma (facts.zip decs)),
    respondRatioOf facts,
    decs,
    numFactsOf decs,
    if gamma ≠ 0 then some (meanQ (batchInits (facts.zip decs))) else none ⟩

/-- `get_score` after atomic-fact collection: the scoring loop over the
`atomic_facts` entries followed by the report assembly. -/
noncomputable def getScoreBatch (lm : Option (Str → LMOutput)) (modelName : Str)
    (npmProb : Str → ℚ) (gamma : ℚ) (facts : List (Option (List Str))) :
    Except String ScoreReport :=
  match batchDecisions lm modelName npmProb facts with
  | .error e => .error e
  | .ok decs => .ok (buildReport gamma facts decs)

/-- One iteration's input of the decomposition loop (lines 172–187): either
the abstain detector fired, or decomposition produced a (possibly empty)
fact list. -/
inductive DecompItem
  | abstained
  | generated (afs : List Str)

/-- Whether a decomposition item reached the flush check (non-abstained). -/
def isGenItem : DecompItem → Bool
  | .abstained => false
  | .generated _ => true

/-- In-loop `save_cache` count of the decomposition loop, with `n` items
already appended to `atomic_facts`: an abstained item appends `None` and
`continue`s past the flush check; a non-abstained item appends and then
flushes iff the new length is a multiple of 10 (lines 172–187). -/
def decompFlushesAux : List DecompItem → Nat → Nat
  | [], _ => 0
  | .abstained :: t, n => decompFlushesAux t (n + 1)
  | .generated _ :: t, n =>
    (if (n + 1) % 10 = 0 then 1 else 0) + decompFlushesAux t (n + 1)

/-- In-loop `save_cache` count of the decomposition loop over a whole batch. -/
def decompLoopFlushes (items : List DecompItem) : Nat := decompFlushesAux items 0

/-- Total decomposition-cache flushes of a run: the in-loop flushes plus the
unconditional `save_cache` after the loop (line 189). -/
def decompRunFlushes (items : List DecompItem) : Nat := decompLoopFlushes items + 1

/-- In-loop `save_cache` count of the scoring loop, with `k` scores already
appended: only a non-abstained response appends to `scores`, and the flush
fires iff the new `len(scores)` is a multiple of 10 (lines 210–226). -/
def scoreFlushesAux : List (Option (List Str)) → Nat → Nat
  | [], _ => 0
  | none :: t, k => scoreFlushesAux t k
  | some _ :: t, k =>
    (if (k + 1) % 10 = 0 then 1 else 0) + scoreFlushesAux t (k + 1)

/-- In-loop `save_cache` count of the scoring loop over a whole batch. -/
def scoreLoopFlushes (facts : List (Option (List Str))) : Nat := scoreFlushesAux facts 0

/-- Total scoring-cache flushes of a run: the in-loop flushes plus the
unconditional `save_cache` after the loop (line 228). -/
def scoreRunFlushes (facts : List (Option (List Str))) : Nat := scoreLoopFlushes facts + 1

/-- The spec's Example 4 text answer. -/
def exBothAnswer : Str := "I believe this is true, not false".data

/-- A text answer containing neither keyword but the refusal word. -/
def exNeitherAnswer : Str := "I have no information about this".data

/-- The default model name produced by `generate_model_name()` with the
default constructor arguments. -/
def mn31 : Str := "retrieval+Llama-3.1-8B-Instruct+Llama-3.1-8B-Instruct+npm".data

/-- A model name matching no backend fragment, with the NPM suffix: the
configuration where `self.lm is None` while the cross-checker runs. -/
def mnNpmOnly : Str := "retrieval+m+m+npm".data

/-- A model name matching no backend fragment and without the NPM suffix. -/
def mnPlain : Str := "retrieval+m+m".data

/-- A 20-item decomposition batch whose 10th and 20th items are abstained:
every flush check lands on a skipped iteration. -/
def exDecompBatch : List DecompItem :=
  (List.replicate 9 (DecompItem.generated [tru]) ++ [DecompItem.abstained])
    ++ (List.replicate 9 (DecompItem.generated [tru]) ++ [DecompItem.abstained])

/-- The veto threshold is the literal 0.3 of the source. -/
theorem npmThreshold_eq : npmThreshold = 3 / 10 := by
  unfold npmThreshold
  rw [Rat.mkRat_eq_div]
  norm_num

/-- Summing a 0/1 indicator over a list counts the satisfying elements. -/
theorem sum_ite_eq_countP {α : Type} (p : α → Bool) :
    ∀ l : List α, (l.map fun a => if p a then (1 : ℚ) else 0).sum = (l.countP p : ℚ) := by
  intro l
  induction l with
  | nil => simp
  | cons a t ih =>
    by_cases h : p a <;> simp [List.countP_cons, ih, h, add_comm]

/-- The pre-penalty score is the supported-decision count over the length. -/
theorem initScore_eq_countP (ds : List Decision) :
    initScore ds = ((ds.countP fun d => d.is_supported : ℕ) : ℚ) / (ds.length : ℚ) := by
  unfold initScore
  rw [sum_ite_eq_countP]

/-- The length penalty is never negative. -/
theorem penalty_nonneg (gamma : ℚ) (c : ℕ) : 0 ≤ penalty gamma c := by
  unfold penalty
  split
  · exact zero_le_one
  · exact (Real.exp_pos _).le

/-- A successful `mapE` run relates inputs to outputs pointwise. -/
theorem mapE_ok_forall₂ {α β : Type} {f : α → Except String β} {R : α → β → Prop}
    (hR : ∀ a b, f a = .ok b → R a b) :
    ∀ (l : List α) (ys : List β), mapE f l = .ok ys → List.Forall₂ R l ys := by
  intro l
  induction l with
  | nil =>
    intro ys h
    simp only [mapE] at h
    cases h
    exact .nil
  | cons a t ih =>
    intro ys h
    simp only [mapE] at h
    cases hfa : f a with
    | error e => rw [hfa] at h; cases h
    | ok b =>
      rw [hfa] at h
      cases hft : mapE f t with
      | error e => rw [hft] at h; cases h
      | ok bs =>
        rw [hft] at h
        cases h
        exact .cons (hR a b hfa) (ih bs hft)

/-- Two successful `mapE` runs over the same inputs relate outputs pointwise. -/
theorem mapE_ok_rel₂ {α β γ : Type} {f : α → Except String β} {g : α → Except String γ}
    {R : β → γ → Prop} (hR : ∀ a b c, f a = .ok b → g a = .ok c → R b c) :
    ∀ (l : List α) (ys : List β) (zs : List γ),
      mapE f l = .ok ys → mapE g l = .ok zs → List.Forall₂ R ys zs := by
  intro l
  induction l with
  | nil =>
    intro ys zs h1 h2
    simp only [mapE] at h1 h2
    cases h1
    cases h2
    exact .nil
  | cons a t ih =>
    intro ys zs h1 h2
    simp only [mapE] at h1 h2
    cases hfa : f a with
    | error e => rw [hfa] at h1; cases h1
    | ok b =>
      rw [hfa] at h1
      cases hft : mapE f t with
      | error e => rw [hft] at h1; cases h1
      | ok bs =>
        rw [hft] at h1
        cases h1
        cases hga : g a with
        | error e => rw [hga] at h2; cases h2
        | ok c =>
          rw [hga] at h2
          cases hgt : mapE g t with
          | error e => rw [hgt] at h2; cases h2
          | ok cs =>
            rw [hgt] at h2
            cases h2
            exact .cons (hR a b c hfa hga) (ih bs cs hft hgt)

/-- A successful `mapE` run preserves the list length. -/
theorem mapE_ok_length {α β : Type} {f : α → Except String β} {l : List α} {ys : List β}
    (h : mapE f l = .ok ys) : ys.length = l.length :=
  ((mapE_ok_forall₂ (R := fun _ _ => True) (fun _ _ _ => trivial) l ys h).length_eq).symm

/-- The answer-resolution mode depends on the model name only through the
`"Llama-3.1-8B-Instruct"` containment test. -/
theorem baseSupport_congr (lm : Option (Str → LMOutput)) (mn mn' : Str)
    (h : containsSub mn llamaTag = containsSub mn' llamaTag) (a : Str) :
    baseSupport lm mn a = baseSupport lm mn' a := by
  cases lm with
  | none => rfl
  | some gen =>
    simp only [baseSupport, resolveAnswer]
    cases (gen a).aux with
    | none => rfl
    | some logits => rw [h]

/-- C1 counterexample: the text-mode answer "I believe this is true, not false"
contains both keywords with "true" occurring first, yet the code resolves it
to `is_supported = false`, because line 290 compares first-occurrence indices
with `>` — the claimed first-word-wins rule does not hold. -/
theorem text_mode_example_resolves_false :
    resolveTextAnswer exBothAnswer = false ∧ resolveTextAnswer exBothAnswer ≠ true := by
  decide

/-- C1 amended: in text mode, for an answer whose lower-cased text contains
both "true" and "false", `is_supported` is resolved by whichever keyword
occurs later: it is true iff the first occurrence of "false" strictly
precedes the first occurrence of "true". -/
theorem text_mode_both_keywords_later_wins (s : Str)
    (ht : containsSub (lowerStr s) tru = true)
    (hf : containsSub (lowerStr s) fls = true) :
    resolveTextAnswer s = true ↔
      indexOfSub (lowerStr s) fls < indexOfSub (lowerStr s) tru := by
  simp [resolveTextAnswer, ht, hf]

/-- C1 amended witness at the spec's Example 4 answer. -/
theorem text_mode_both_keywords_later_wins_witness :
    containsSub (lowerStr exBothAnswer) tru = true
    ∧ containsSub (lowerStr exBothAnswer) fls = true
    ∧ (resolveTextAnswer exBothAnswer = true ↔
        indexOfSub (lowerStr exBothAnswer) fls < indexOfSub (lowerStr exBothAnswer) tru) :=
  ⟨by decide, by decide,
    text_mode_both_keywords_later_wins exBothAnswer (by decide) (by decide)⟩

/-- C8: in text mode, for an answer whose lower-cased text contains neither
"true" nor "false", `is_supported` defaults to true and is false exactly
when one of the refusal keywords "not", "cannot", "unknown", "information"
appears as a word of the punctuation-stripped text. -/
theorem text_mode_neither_keyword_default (s : Str)
    (ht : containsSub (lowerStr s) tru = false)
    (hf : containsSub (lowerStr s) fls = false) :
    resolveTextAnswer s = false ↔
      ∃ kw ∈ refusalKeywords, kw ∈ splitWords (stripPunct (lowerStr (lowerStr s))) := by
  simp [resolveTextAnswer, ht, hf]

/-- C8 witness: an answer with neither keyword whose stripped text has the
word "information" defaults to `is_supported = false`. -/
theorem text_mode_neither_keyword_default_witness :
    containsSub (lowerStr exNeitherAnswer) tru = false
    ∧ containsSub (lowerStr exNeitherAnswer) fls = false
    ∧ (resolveTextAnswer exNeitherAnswer = false ↔
        ∃ kw ∈ refusalKeywords,
          kw ∈ splitWords (stripPunct (lowerStr (lowerStr exNeitherAnswer)))) :=
  ⟨by decide, by decide,
    text_mode_neither_keyword_default exNeitherAnswer (by decide) (by decide)⟩

/-- C5 counterexample: under the default model name the model call returns a
score vector (`aux = some [0]`), yet resolution takes text mode and returns
`ok false`; score-vector mode on that vector would instead be the fatal
dimensionality error — so score-vector mode is NOT selected exactly when a
score vector is returned. -/
theorem score_vector_ignored_for_llama31 :
    resolveAnswer mn31 ⟨fls, some [(0 : ℚ)]⟩ = .ok false
    ∧ resolveAnswer mn31 ⟨fls, some [(0 : ℚ)]⟩ ≠ resolveLogitsAnswer [(0 : ℚ)] := by
  decide

/-- C5 amended: score-vector mode is used exactly when the model call returns
a score vector AND the model name does not contain "Llama-3.1-8B-Instruct";
in that mode `is_supported` is true iff the weight of the fixed True token
(index 5852) exceeds the weight of the fixed False token (index 7700),
under the precondition that the vector's length is 32000 or 32001, any
other length being the fatal dimensionality error. -/
theorem answer_resolution_dispatch (mn : Str) (text : Str) (logits : List ℚ) :
    (containsSub mn llamaTag = false →
      resolveAnswer mn ⟨text, some logits⟩ = resolveLogitsAnswer logits)
    ∧ (containsSub mn llamaTag = true →
      resolveAnswer mn ⟨text, some logits⟩ = .ok (resolveTextAnswer text))
    ∧ resolveAnswer mn ⟨text, none⟩ = .ok (resolveTextAnswer text)
    ∧ (logits.length = 32000 ∨ logits.length = 32001 →
      resolveLogitsAnswer logits
        = .ok (decide (logits.getD true_ix 0 > logits.getD false_ix 0)))
    ∧ (¬(logits.length = 32000 ∨ logits.length = 32001) →
      resolveLogitsAnswer logits = .error vocabErr) := by
  refine ⟨fun h => ?_, fun h => ?_, rfl, fun h => ?_, fun h => ?_⟩
  · simp [resolveAnswer, h]
  · simp [resolveAnswer, h]
  · simp [resolveLogitsAnswer, h]
  · simp [resolveLogitsAnswer, h]

/-- C5 amended witness: a model name without the Llama fragment takes
score-vector mode, and a one-entry vector is the fatal error. -/
theorem answer_resolution_dispatch_witness :
    resolveAnswer mnPlain ⟨fls, some [(0 : ℚ)]⟩ = resolveLogitsAnswer [(0 : ℚ)]
    ∧ resolveLogitsAnswer [(0 : ℚ)] = .error vocabErr :=
  ⟨(answer_resolution_dispatch mnPlain fls [(0 : ℚ)]).1 (by decide),
    (answer_resolution_dispatch mnPlain fls [(0 : ℚ)]).2.2.2.2 (by decide)⟩

/-- C6 counterexample: with no verification model configured (`self.lm` is
None) but the NPM cross-checker enabled and reporting probability 0, the
atomic fact "true" receives `is_supported = false`, not true. -/
theorem no_lm_npm_can_veto :
    verifyAtom none mnNpmOnly (fun _ => 0) tru = .ok ⟨tru, false⟩ := by
  decide

/-- C6 amended: when no underlying verification model is configured
(`self.lm` is None), the verification step marks every atomic fact
supported, and the final decision is `is_supported = true` whenever the NPM
cross-checker is not enabled; with NPM enabled the trivially-supported
decision is still subject to the veto. -/
theorem no_lm_supported_without_npm (mn : Str) (p : Str → ℚ) (atom : Str)
    (h : npmEnabled mn = false) :
    baseSupport none mn (stripStr atom) = .ok true
    ∧ verifyAtom none mn p atom = .ok ⟨stripStr atom, true⟩ := by
  constructor
  · rfl
  · simp [verifyAtom, baseSupport, npmAdjust, h]

/-- C6 amended witness at a model name without the NPM fragment. -/
theorem no_lm_supported_without_npm_witness :
    baseSupport none mnPlain (stripStr tru) = .ok true
    ∧ verifyAtom none mnPlain (fun _ => 0) tru = .ok ⟨stripStr tru, true⟩ :=
  no_lm_supported_without_npm mnPlain (fun _ => 0) tru (by decide)

/-- The cross-check can only confirm an already supported verdict. -/
theorem npmAdjust_true_imp {mn : Str} {p : Str → ℚ} {a : Str} {s : Bool}
    (h : npmAdjust mn p a s = true) : s = true := by
  cases s with
  | true => rfl
  | false => simp [npmAdjust] at h

/-- A supported verdict survives unchanged when the cross-checker is off. -/
theorem npmAdjust_of_disabled {mn : Str} (p : Str → ℚ) (a : Str) (s : Bool)
    (h : npmEnabled mn = false) : npmAdjust mn p a s = s := by
  simp [npmAdjust, h]

/-- A decision produced with the cross-checker enabled is supported only if
the decision produced without it (same model, same answers) is. -/
theorem verifyAtom_support_imp (lm : Option (Str → LMOutput)) (mnOn mnOff : Str)
    (p : Str → ℚ) (hOff : npmEnabled mnOff = false)
    (hsame : containsSub mnOn llamaTag = containsSub mnOff llamaTag)
    (a : Str) (d d' : Decision)
    (h1 : verifyAtom lm mnOn p a = .ok d) (h2 : verifyAtom lm mnOff p a = .ok d') :
    d.is_supported = true → d'.is_supported = true := by
  unfold verifyAtom at h1 h2
  rw [baseSupport_congr lm mnOn mnOff hsame (stripStr a)] at h1
  cases hb : baseSupport lm mnOff (stripStr a) with
  | error e => rw [hb] at h1; cases h1
  | ok s =>
    rw [hb] at h1 h2
    cases h1
    cases h2
    intro hsup
    simp only [npmAdjust_of_disabled p (stripStr a) s hOff]
    exact npmAdjust_true_imp hsup

/-- Pointwise support implication bounds the supported-decision count. -/
theorem forall₂_support_countP_le {ds ds' : List Decision}
    (h : List.Forall₂ (fun d d' => d.is_supported = true → d'.is_supported = true) ds ds') :
    (ds.countP fun d => d.is_supported) ≤ ds'.countP fun d => d.is_supported := by
  induction h with
  | nil => simp
  | @cons a b l1 l2 hR hT ih =>
    simp only [List.countP_cons]
    by_cases hb : a.is_supported = true
    · simp [hb, hR hb]
      omega
    · cases hb' : b.is_supported <;> simp [hb, hb'] <;> omega

/-- Pointwise support implication bounds the pre-penalty score. -/
theorem initScore_le_of_forall₂ {ds ds' : List Decision}
    (h : List.Forall₂ (fun d d' => d.is_supported = true → d'.is_supported = true) ds ds') :
    initScore ds ≤ initScore ds' := by
  have hlen := h.length_eq
  rw [initScore_eq_countP, initScore_eq_countP, hlen]
  rcases Nat.eq_zero_or_pos ds'.length with h0 | hpos
  · rw [h0]
    simp
  · have hden : (0 : ℚ) < (ds'.length : ℚ) := by exact_mod_cast hpos
    gcongr
    exact_mod_cast forall₂_support_countP_le h

/-- Pointwise support implication bounds the (possibly penalized) score. -/
theorem loopScore_le_of_forall₂ (gamma : ℚ) (atoms : List Str) {ds ds' : List Decision}
    (h : List.Forall₂ (fun d d' => d.is_supported = true → d'.is_supported = true) ds ds') :
    loopScore gamma atoms ds ≤ loopScore gamma atoms ds' := by
  have hq := initScore_le_of_forall₂ h
  unfold loopScore
  split
  · refine mul_le_mul_of_nonneg_left ?_ (penalty_nonneg gamma atoms.length)
    exact_mod_cast hq
  · exact_mod_cast hq

/-- C3: the NPM cross-checker re-examines only decisions already marked
supported; a support probability ≤ 0.3 flips the decision to unsupported;
an unsupported decision is never upgraded; hence, for the same verification
model, answers and probabilities, a response's pre-penalty and final score
with the cross-checker enabled is at most the score without it. -/
theorem npm_veto_monotone
    (mnOn mnOff : Str) (hOn : npmEnabled mnOn = true) (hOff : npmEnabled mnOff = false)
    (hsame : containsSub mnOn llamaTag = containsSub mnOff llamaTag)
    (lm : Option (Str → LMOutput)) (p : Str → ℚ) (gamma : ℚ) (atoms : List Str)
    (ds ds' : List Decision)
    (hds : decisionsOf lm mnOn p atoms = .ok ds)
    (hds' : decisionsOf lm mnOff p atoms = .ok ds') :
    (∀ a, npmAdjust mnOn p a false = false)
    ∧ (∀ a, p a ≤ 3 / 10 → npmAdjust mnOn p a true = false)
    ∧ initScore ds ≤ initScore ds'
    ∧ loopScore gamma atoms ds ≤ loopScore gamma atoms ds' := by
  have hrel : List.Forall₂
      (fun d d' => d.is_supported = true → d'.is_supported = true) ds ds' :=
    mapE_ok_rel₂
      (fun a d d' => verifyAtom_support_imp lm mnOn mnOff p hOff hsame a d d')
      atoms ds ds' hds hds'
  refine ⟨fun a => ?_, fun a h => ?_, initScore_le_of_forall₂ hrel,
    loopScore_le_of_forall₂ gamma atoms hrel⟩
  · simp [npmAdjust]
  · simp only [npmAdjust, hOn, Bool.and_true, if_true, npmThreshold_eq]
    simpa using not_lt.mpr h

/-- C3 witness: with no verification model, probability 0 and one atomic
fact, the cross-checker flips the decision and the score drops. -/
theorem npm_veto_monotone_witness :
    decisionsOf none mnNpmOnly (fun _ => 0) [tru] = .ok [⟨tru, false⟩]
    ∧ decisionsOf none mnPlain (fun _ => 0) [tru] = .ok [⟨tru, true⟩]
    ∧ initScore [⟨tru, false⟩] ≤ initScore [⟨tru, true⟩]
    ∧ loopScore 10 [tru] [⟨tru, false⟩] ≤ loopScore 10 [tru] [⟨tru, true⟩] :=
  ⟨by decide, by decide,
    (npm_veto_monotone mnNpmOnly mnPlain (by decide) (by decide) (by decide)
      none (fun _ => 0) 10 [tru] [⟨tru, false⟩] [⟨tru, true⟩]
      (by decide) (by decide)).2.2.1,
    (npm_veto_monotone mnNpmOnly mnPlain (by decide) (by decide) (by decide)
      none (fun _ => 0) 10 [tru] [⟨tru, false⟩] [⟨tru, true⟩]
      (by decide) (by decide)).2.2.2⟩

/-- C2: for a non-abstained response with a non-empty decision list and a
positive gamma, the pre-penalty score is the mean of `is_supported` (the
supported count over the decision count), it is retained unmodified in the
`init_scores` accumulator, and the reported score multiplies it by the
penalty `1.0` when the claim count exceeds gamma and `exp(1 - gamma/c)`
otherwise; one supported claim at gamma = 10 scores `exp(-9)` with
`init_score = 1`. -/
theorem per_response_score_formula
    (lm : Option (Str → LMOutput)) (mn : Str) (p : Str → ℚ) (gamma : ℚ)
    (atoms : List Str) (ds : List Decision)
    (hds : decisionsOf lm mn p atoms = .ok ds) (hne : ds ≠ []) (hg : 0 < gamma) :
    loopScore gamma atoms ds
      = (if gamma < (atoms.length : ℚ) then (1 : ℝ)
          else Real.exp (1 - (gamma : ℝ) / (atoms.length : ℝ)))
        * (((ds.countP fun d => d.is_supported : ℕ) : ℝ) / ((ds.length : ℕ) : ℝ))
    ∧ batchInits [(some atoms, some ds)] = [initScore ds]
    ∧ initScore ds = ((ds.countP fun d => d.is_supported : ℕ) : ℚ) / (ds.length : ℚ)
    ∧ loopScore 10 [tru] [⟨tru, true⟩] = Real.exp (-9)
    ∧ initScore [⟨tru, true⟩] = 1 := by
  have hgne : gamma ≠ 0 := ne_of_gt hg
  refine ⟨?_, by simp [batchInits], initScore_eq_countP ds, ?_, by simp [initScore]⟩
  · rw [loopScore, if_pos hgne, penalty, initScore_eq_countP]
    push_cast
    ring
  · rw [loopScore, if_pos (by norm_num : (10 : ℚ) ≠ 0), penalty]
    norm_num [initScore]

/-- C2 witness: one supported claim, gamma = 10. -/
theorem per_response_score_formula_witness :
    decisionsOf none mnPlain (fun _ => 0) [tru] = .ok [⟨tru, true⟩]
    ∧ ([⟨tru, true⟩] : List Decision) ≠ []
    ∧ (0 : ℚ) < 10
    ∧ loopScore 10 [tru] [⟨tru, true⟩] = Real.exp (-9)
    ∧ initScore [⟨tru, true⟩] = 1 :=
  ⟨by decide, by decide, by decide,
    (per_response_score_formula none mnPlain (fun _ => 0) 10 [tru] [⟨tru, true⟩]
      (by decide) (by decide) (by decide)).2.2.2.1,
    (per_response_score_formula none mnPlain (fun _ => 0) 10 [tru] [⟨tru, true⟩]
      (by decide) (by decide) (by decide)).2.2.2.2⟩

/-- C7: for every claim count c ≥ 1 and gamma > 0, the penalty is 1.0 when
c exceeds gamma and `exp(1 - gamma/c)` otherwise, and it is strictly
increasing in c on c ≤ gamma. -/
theorem penalty_formula_strict_mono (gamma : ℚ) (c : ℕ) (hc : 1 ≤ c) (hg : 0 < gamma) :
    (gamma < (c : ℚ) → penalty gamma c = 1)
    ∧ ((c : ℚ) ≤ gamma → penalty gamma c = Real.exp (1 - (gamma : ℝ) / (c : ℝ)))
    ∧ ∀ c2 : ℕ, c < c2 → (c2 : ℚ) ≤ gamma → penalty gamma c < penalty gamma c2 := by
  refine ⟨fun h => ?_, fun h => ?_, fun c2 h2 hle => ?_⟩
  · rw [penalty, if_pos h]
  · rw [penalty, if_neg (not_lt.mpr h)]
  · have hcc : (c : ℚ) < (c2 : ℚ) := by exact_mod_cast h2
    have hcg : (c : ℚ) ≤ gamma := le_trans hcc.le hle
    rw [penalty, if_neg (not_lt.mpr hcg), penalty, if_neg (not_lt.mpr hle)]
    apply Real.exp_lt_exp.mpr
    have hgr : (0 : ℝ) < (gamma : ℝ) := by exact_mod_cast hg
    have hcr : (0 : ℝ) < (c : ℝ) := by
      have hpos : 0 < c := hc
      exact_mod_cast hpos
    have hccr : (c : ℝ) < (c2 : ℝ) := by exact_mod_cast h2
    have hdiv := div_lt_div_of_pos_left hgr hcr hccr
    linarith

/-- C7 witness at c = 1 < c2 = 2 ≤ gamma = 10. -/
theorem penalty_formula_strict_mono_witness :
    1 ≤ 1 ∧ (0 : ℚ) < 10 ∧ 1 < 2 ∧ ((2 : ℕ) : ℚ) ≤ 10
    ∧ penalty 10 1 < penalty 10 2 :=
  ⟨by decide, by decide, by decide, by decide,
    (penalty_formula_strict_mono 10 1 (by decide) (by decide)).2.2 2
      (by decide) (by decide)⟩

/-- The scoring loop yields a decision list exactly for non-abstained entries. -/
theorem decideEntry_isSome (lm : Option (Str → LMOutput)) (mn : Str) (p : Str → ℚ) :
    ∀ (f : Option (List Str)) (d : Option (List Decision)),
      decideEntry lm mn p f = .ok d → Option.isSome d = Option.isSome f := by
  intro f d h
  cases f with
  | none =>
    simp only [decideEntry] at h
    cases h
    rfl
  | some atoms =>
    simp only [decideEntry] at h
    cases hds : decisionsOf lm mn p atoms with
    | error e => rw [hds] at h; cases h
    | ok ds => rw [hds] at h; cases h; rfl

/-- Abstained entries contribute no entry to the per-response score list:
its length is the number of non-abstained responses. -/
theorem forall₂_batchScores_length (gamma : ℚ)
    {facts : List (Option (List Str))} {decs : List (Option (List Decision))}
    (h : List.Forall₂ (fun f d => Option.isSome d = Option.isSome f) facts decs) :
    (batchScores gamma (facts.zip decs)).length = facts.countP Option.isSome := by
  induction h with
  | nil => simp [batchScores]
  | @cons f d fs ds hfd ht ih =>
    cases f with
    | none =>
      cases d with
      | none => simpa [batchScores, List.countP_cons] using ih
      | some ds0 => simp at hfd
    | some atoms =>
      cases d with
      | none => simp at hfd
      | some ds0 =>
        simp only [List.zip_cons_cons, batchScores, List.filterMap_cons] at ih ⊢
        simp [List.countP_cons, ih]

/-- The non-`None` decision lists are in bijection with the non-abstained
responses. -/
theorem forall₂_filterMap_length
    {facts : List (Option (List Str))} {decs : List (Option (List Decision))}
    (h : List.Forall₂ (fun f d => Option.isSome d = Option.isSome f) facts decs) :
    (decs.filterMap id).length = facts.countP Option.isSome := by
  induction h with
  | nil => simp
  | @cons f d fs ds hfd ht ih =>
    cases f with
    | none =>
      cases d with
      | none => simpa [List.countP_cons] using ih
      | some ds0 => simp at hfd
    | some atoms =>
      cases d with
      | none => simp at hfd
      | some ds0 => simp [List.countP_cons, ih]

/-- Un-NaN form of `np.mean` on a non-empty list. -/
theorem meanQ_eq (xs : List ℚ) (h : xs ≠ []) :
    meanQ xs = some (xs.sum / (xs.length : ℚ)) := by
  unfold meanQ
  rw [if_neg (by simpa using h)]

/-- The respond ratio of a non-empty batch is the non-abstained fraction. -/
theorem respondRatioOf_eq (facts : List (Option (List Str))) (h : facts ≠ []) :
    respondRatioOf facts
      = some (((facts.countP Option.isSome : ℕ) : ℚ) / (facts.length : ℚ)) := by
  unfold respondRatioOf
  rw [meanQ_eq _ (by simpa using h), sum_ite_eq_countP Option.isSome facts]
  simp

/-- C4: an abstained response (atomic-facts entry `None`) contributes no
entry to the per-response score list, the respond ratio of a non-empty
batch is the fraction of non-abstained responses, and the mean claims per
response averages the decision-list lengths over the non-abstained
responses only (their count, not the batch size, is the denominator). -/
theorem abstained_excluded_from_aggregates
    (lm : Option (Str → LMOutput)) (mn : Str) (p : Str → ℚ) (gamma : ℚ)
    (facts : List (Option (List Str))) (decs : List (Option (List Decision)))
    (hok : batchDecisions lm mn p facts = .ok decs) (hne : facts ≠ []) :
    (batchScores gamma (facts.zip decs)).length = facts.countP Option.isSome
    ∧ ScoreReport.respond_ratio (buildReport gamma facts decs)
        = some (((facts.countP Option.isSome : ℕ) : ℚ) / (facts.length : ℚ))
    ∧ (decs.filterMap id).length = facts.countP Option.isSome
    ∧ (facts.countP Option.isSome ≠ 0 →
        ScoreReport.num_facts_per_response (buildReport gamma facts decs)
          = some ((((decs.filterMap id).map fun ds => ((ds.length : ℕ) : ℚ)).sum)
              / ((facts.countP Option.isSome : ℕ) : ℚ))) := by
  have halign : List.Forall₂ (fun f d => Option.isSome d = Option.isSome f) facts decs :=
    mapE_ok_forall₂ (decideEntry_isSome lm mn p) facts decs hok
  refine ⟨forall₂_batchScores_length gamma halign, ?_,
    forall₂_filterMap_length halign, fun hnz => ?_⟩
  · show respondRatioOf facts = _
    exact respondRatioOf_eq facts hne
  · show numFactsOf decs = _
    have hlen := forall₂_filterMap_length halign
    have hnil : (decs.filterMap id).map (fun ds => ((ds.length : ℕ) : ℚ)) ≠ [] := by
      have : decs.filterMap id ≠ [] := by
        intro hempty
        rw [hempty] at hlen
        exact hnz hlen.symm
      simpa using this
    unfold numFactsOf
    rw [meanQ_eq _ hnil, List.length_map, hlen]

/-- C4 witness: a two-response batch, one abstained. -/
theorem abstained_excluded_from_aggregates_witness :
    (batchScores 10 ([some [tru], none].zip [some [⟨tru, true⟩], none])).length
        = [some [tru], (none : Option (List Str))].countP Option.isSome
    ∧ ScoreReport.respond_ratio
          (buildReport 10 [some [tru], none] [some [⟨tru, true⟩], none])
        = some ((([some [tru], (none : Option (List Str))].countP Option.isSome : ℕ) : ℚ)
            / (([some [tru], (none : Option (List Str))].length : ℕ) : ℚ))
    ∧ (([some [⟨tru, true⟩], none] : List (Option (List Decision))).filterMap id).length
        = [some [tru], (none : Option (List Str))].countP Option.isSome
    ∧ ScoreReport.num_facts_per_response
          (buildReport 10 [some [tru], none] [some [⟨tru, true⟩], none])
        = some ((((([some [⟨tru, true⟩], none] : List (Option (List Decision))).filterMap
                id).map fun ds => ((ds.length : ℕ) : ℚ)).sum)
            / (([some [tru], (none : Option (List Str))].countP Option.isSome : ℕ) : ℚ)) :=
  ⟨(abstained_excluded_from_aggregates none mnPlain (fun _ => 0) 10
      [some [tru], none] [some [⟨tru, true⟩], none] (by decide) (by decide)).1,
    (abstained_excluded_from_aggregates none mnPlain (fun _ => 0) 10
      [some [tru], none] [some [⟨tru, true⟩], none] (by decide) (by decide)).2.1,
    (abstained_excluded_from_aggregates none mnPlain (fun _ => 0) 10
      [some [tru], none] [some [⟨tru, true⟩], none] (by decide) (by decide)).2.2.1,
    (abstained_excluded_from_aggregates none mnPlain (fun _ => 0) 10
      [some [tru], none] [some [⟨tru, true⟩], none] (by decide) (by decide)).2.2.2
      (by decide)⟩

/-- A batch of abstained responses yields the all-`None` decisions list. -/
theorem batchDecisions_all_none (lm : Option (Str → LMOutput)) (mn : Str) (p : Str → ℚ) :
    ∀ facts : List (Option (List Str)), (∀ f ∈ facts, f = none) →
      batchDecisions lm mn p facts = .ok (facts.map fun _ => none) := by
  intro facts
  induction facts with
  | nil => intro _; rfl
  | cons f t ih =>
    intro h
    have hf : f = none := h f (List.mem_cons_self f t)
    subst hf
    have hrec := ih fun x hx => h x (List.mem_cons_of_mem _ hx)
    simp only [batchDecisions] at hrec ⊢
    simp [mapE, decideEntry, hrec]

/-- The score list of an all-abstained batch is empty. -/
theorem batchScores_all_none (gamma : ℚ) :
    ∀ facts : List (Option (List Str)),
      batchScores gamma (facts.zip (facts.map fun _ => none)) = [] := by
  intro facts
  induction facts with
  | nil => rfl
  | cons f t ih => cases f <;> simpa [batchScores] using ih

/-- C10: on a batch in which every atomic-facts entry is `None` (and on the
empty batch), `get_score` returns successfully, and both the corpus score
and the mean claims per response are the mean of an empty list — the NaN
terminal value, modelled as `none` — rather than an error or a number. -/
theorem all_abstained_report_nan
    (lm : Option (Str → LMOutput)) (mn : Str) (p : Str → ℚ) (gamma : ℚ)
    (facts : List (Option (List Str))) (hall : ∀ f ∈ facts, f = none) :
    ∃ r, getScoreBatch lm mn p gamma facts = .ok r
      ∧ ScoreReport.score r = none
      ∧ ScoreReport.num_facts_per_response r = none := by
  refine ⟨buildReport gamma facts (facts.map fun _ => none), ?_, ?_, ?_⟩
  · unfold getScoreBatch
    rw [batchDecisions_all_none lm mn p facts hall]
  · show meanR (batchScores gamma (facts.zip (facts.map fun _ => none))) = none
    rw [batchScores_all_none gamma facts]
    simp [meanR]
  · show numFactsOf (facts.map fun _ => none) = none
    have hempty : ((facts.map fun _ => none : List (Option (List Decision))).filterMap id) = [] := by
      simp
    unfold numFactsOf
    rw [hempty]
    rfl

/-- C10 witness: a two-response batch, both abstained. -/
theorem all_abstained_report_nan_witness :
    ∃ r, getScoreBatch none mnPlain (fun _ => 0) 10 [none, none] = .ok r
      ∧ ScoreReport.score r = none
      ∧ ScoreReport.num_facts_per_response r = none :=
  all_abstained_report_nan none mnPlain (fun _ => 0) 10 [none, none] (by decide)

/-- In-loop decomposition flushes counted position by position: a flush
happens exactly at a non-abstained item whose 1-based position is a
multiple of 10. -/
theorem decompFlushesAux_enumFrom :
    ∀ (items : List DecompItem) (n : Nat),
      decompFlushesAux items n
        = (List.enumFrom n items).countP fun q =>
            decide ((q.1 + 1) % 10 = 0) && isGenItem q.2 := by
  intro items
  induction items with
  | nil => intro n; rfl
  | cons it t ih =>
    intro n
    cases it with
    | abstained =>
      simp [decompFlushesAux, List.enumFrom, List.countP_cons, ih (n + 1), isGenItem]
    | generated afs =>
      simp only [decompFlushesAux, List.enumFrom, List.countP_cons, ih (n + 1), isGenItem]
      by_cases h : (n + 1) % 10 = 0 <;> simp [h, add_comm]

/-- In-loop scoring flushes counted by scored items: with `k` scores already
recorded, the loop over the remaining entries flushes once per multiple of
10 reached by the score count. -/
theorem scoreFlushesAux_div :
    ∀ (facts : List (Option (List Str))) (k : Nat),
      scoreFlushesAux facts k = (k + facts.countP Option.isSome) / 10 - k / 10 := by
  intro facts
  induction facts with
  | nil => intro k; simp [scoreFlushesAux]
  | cons f t ih =>
    intro k
    cases f with
    | none => simp [scoreFlushesAux, List.countP_cons, ih k]
    | some atoms =>
      simp only [scoreFlushesAux, List.countP_cons, Option.isSome_some, if_true]
      rw [ih (k + 1)]
      have h10 := Nat.succ_div k 10
      have hmono : (k + 1) / 10 ≤ (k + 1 + t.countP Option.isSome) / 10 :=
        Nat.div_le_div_right (Nat.le_add_right _ _)
      by_cases h : (k + 1) % 10 = 0
      · have hd : 10 ∣ k + 1 := by omega
        rw [if_pos hd] at h10
        simp only [if_pos h]
        omega
      · have hd : ¬ 10 ∣ k + 1 := by omega
        rw [if_neg hd] at h10
        simp only [if_neg h]
        omega

/-- C9 amended: the decomposition loop flushes its cache exactly at the
non-abstained items whose 1-based position in the batch is a multiple of 10
(abstained iterations `continue` past the flush check), the scoring loop
flushes exactly once per 10 non-abstained (scored) responses rather than
per 10 processed responses, and each loop flushes once more
unconditionally at the end of the run. -/
theorem flush_schedule_exact (items : List DecompItem)
    (facts : List (Option (List Str))) :
    decompRunFlushes items = decompLoopFlushes items + 1
    ∧ decompLoopFlushes items
        = items.enum.countP fun q => decide ((q.1 + 1) % 10 = 0) && isGenItem q.2
    ∧ scoreRunFlushes facts = scoreLoopFlushes facts + 1
    ∧ scoreLoopFlushes facts = facts.countP Option.isSome / 10 := by
  refine ⟨rfl, decompFlushesAux_enumFrom items 0, rfl, ?_⟩
  simpa using scoreFlushesAux_div facts 0

/-- C9 counterexample: a 20-item decomposition batch whose 10th and 20th
items are abstained performs 18 items of cache-filling work but never
flushes inside the loop — the claimed flush after every 10 processed items
(and the at-most-9-items-lost bound) fails. -/
theorem flush_skipped_on_abstained :
    decompLoopFlushes exDecompBatch = 0
    ∧ exDecompBatch.length = 20
    ∧ exDecompBatch.countP isGenItem = 18 := by
  decide

end OpenFActScore
